import Mathlib

/-!
Shallow embedding of the zfs exporter collector
(src/py_zfs_exporter/zfs_exporter.py).

The collector, on each scrape, reads the live pool and dataset lists,
applies a depth-based aggregation policy, extracts a fixed catalog of
properties per object, and produces a flat list of labeled gauge series
plus one duration observation.  Property lookups in the source raise a
KeyError when the property key is missing and raise a ValueError when a
raw value cannot be converted to an integer; in this embedding fallible
extraction returns an Except value and an exception anywhere before the
yield statements turns the whole pass into an error result, exactly as a
Python exception escaping the generator would.
-/

/-- The parsed value of a ZFS property: the source reads integers
(byte counts), booleans (atime) and strings (type) out of the
`parsed` field of a libzfs property. -/
inductive PVal where
  | int (n : Int)
  | bool (b : Bool)
  | str (s : String)
  deriving DecidableEq, Repr

/-- A ZFS property as libzfs presents it: a raw string value and a
parsed value (`d.properties[k].rawvalue` / `d.properties[k].parsed`). -/
structure Property where
  rawvalue : String
  parsed : PVal
  deriving DecidableEq, Repr

/-- A pool: a name plus its property map (the source reads
`pool.properties[p].parsed` for p in pmetrics). -/
structure Pool where
  name : String
  properties : List (String × Property)
  deriving DecidableEq, Repr

/-- A dataset: its full slash-separated name (`ds.name`), the name of its
pool (`ds.pool.name`), the enum name of its libzfs type (`ds.type.name`,
for example "VOLUME"), and its property map (`ds.properties`). -/
structure Dataset where
  name : String
  poolName : String
  typeName : String
  properties : List (String × Property)
  deriving DecidableEq, Repr

/-- Errors a pass can raise: a missing dictionary key
(Python KeyError on `properties[k]`), a value of the wrong shape for the
requested numeric conversion (Python ValueError / type error), and a
failure to enumerate the ZFS hierarchy at all (libzfs error). -/
inductive Err where
  | keyError (k : String)
  | coercionError (k : String)
  | dataSourceError (msg : String)
  deriving DecidableEq, Repr

deriving instance DecidableEq for Except

/-- Dictionary lookup on a property map: `props[k]` as an Option
(`props.get(k)` in the source; indexing raises KeyError when absent). -/
def lookupProp (props : List (String × Property)) (k : String) : Option Property :=
  (props.find? (fun e => e.1 == k)).map (fun e => e.2)

/-- `props[k].parsed` coerced to an integer sample value: raises KeyError
when the key is absent, and a coercion error when the parsed value is not
an integer. -/
def getParsedProp (props : List (String × Property)) (k : String) : Except Err Int :=
  match lookupProp props k with
  | none => .error (.keyError k)
  | some p =>
    match p.parsed with
    | .int n => .ok n
    | _ => .error (.coercionError k)

/-- Python truthiness of a parsed property value. -/
def truthy : PVal → Bool
  | .int n => n != 0
  | .bool b => b
  | .str s => s != ""

/-- The atime getter:
`1 if d.properties.get('atime') and d.properties['atime'].parsed else 0`.
Total: a missing atime property yields 0 rather than an error. -/
def atimeGetter (ds : Dataset) : Int :=
  match lookupProp ds.properties "atime" with
  | none => 0
  | some p => if truthy p.parsed then 1 else 0

/-- Accumulating decimal digit reader: none as soon as a non-digit
appears. -/
def digitsToNat (acc : Nat) : List Char → Option Nat
  | [] => some acc
  | c :: rest =>
    if c.isDigit then digitsToNat (acc * 10 + (c.toNat - 48)) rest
    else none

/-- Python `int(raw)` on a decimal string: an optional sign followed by
at least one digit; anything else raises ValueError (modelled as none). -/
def parseInt (s : String) : Option Int :=
  match s.data with
  | [] => none
  | '-' :: rest =>
    if rest.isEmpty then none
    else (digitsToNat 0 rest).map (fun n => -(n : Int))
  | '+' :: rest =>
    if rest.isEmpty then none
    else (digitsToNat 0 rest).map (fun n => (n : Int))
  | l => (digitsToNat 0 l).map (fun n => (n : Int))

/-- The creation getter: `int(d.properties['creation'].rawvalue)` —
KeyError when absent, ValueError when the raw string is not an integer. -/
def creationGetter (ds : Dataset) : Except Err Int :=
  match lookupProp ds.properties "creation" with
  | none => .error (.keyError "creation")
  | some p =>
    match parseInt p.rawvalue with
    | some n => .ok n
    | none => .error (.coercionError "creation")

/-- The type getter:
`{'filesystem': 0, 'volume': 1, 'snapshot': 2, 'bookmark': 3}.get(parsed, -1)`
— KeyError when the type property is absent; any parsed value outside the
four known strings maps to -1. -/
def typeGetter (ds : Dataset) : Except Err Int :=
  match lookupProp ds.properties "type" with
  | none => .error (.keyError "type")
  | some p =>
    match p.parsed with
    | .str s =>
      .ok (if s = "filesystem" then 0
           else if s = "volume" then 1
           else if s = "snapshot" then 2
           else if s = "bookmark" then 3
           else -1)
    | _ => .ok (-1)

/-- One sample-producing call to `add_metric`: the metric key (dictionary
key of the family it goes to), the label values, and the numeric value. -/
structure Event where
  key : String
  labels : List String
  value : Int
  deriving DecidableEq, Repr

/-- The pool metric suffixes, in source order. -/
def pmetrics : List String := ["size", "allocated", "freeing"]

/-- The dataset metric catalog `(key, help text)`, in the insertion order
of the dsmetrics dictionary in the source. -/
def dsmetrics : List (String × String) :=
  [("used_bytes",
    "The amount of space consumed by this dataset and all its descendants, in bytes"),
   ("usedbydataset_bytes",
    "The amount of space used by this dataset itself, excluding descendants, in bytes"),
   ("available_bytes",
    "The amount of space available to the dataset and all its children, in bytes"),
   ("atime_enabled",
    "Whether access time updates are enabled (1 = on, 0 = off)"),
   ("creation_date",
    "The time this dataset was created, in epoch"),
   ("type",
    "Dataset type: 0=filesystem, 1=volume, 2=snapshot, 3=bookmark")]

/-- The volume-only metric catalog `(key, help text)`. -/
def volmetrics : List (String × String) :=
  [("volsize_bytes", "logical size of the volume, in bytes")]

/-- Splitting a character list on the slash separator, as Python
`split('/')` does with an explicit single-character separator: the result
always has one more segment than there are separators. -/
def splitSlash : List Char → List (List Char)
  | [] => [[]]
  | c :: rest =>
    match splitSlash rest with
    | [] => [[]]
    | seg :: segs => if c = '/' then [] :: seg :: segs else (c :: seg) :: segs

/-- Dataset path depth: `len(ds.name.split('/')) - 1`. -/
def depth (name : String) : Nat := (splitSlash name.data).length - 1

/-- The pool loop body for one pool: one sample per entry of pmetrics,
labeled with the pool name; any missing or non-numeric pool property
raises. -/
def poolEvents1 (pool : Pool) : Except Err (List Event) :=
  match getParsedProp pool.properties "size" with
  | .error e => .error e
  | .ok s =>
    match getParsedProp pool.properties "allocated" with
    | .error e => .error e
    | .ok a =>
      match getParsedProp pool.properties "freeing" with
      | .error e => .error e
      | .ok f =>
        .ok [⟨"size", [pool.name], s⟩,
             ⟨"allocated", [pool.name], a⟩,
             ⟨"freeing", [pool.name], f⟩]

/-- The full pool loop, over the live pool list in order. -/
def poolsEvents : List Pool → Except Err (List Event)
  | [] => .ok []
  | p :: rest =>
    match poolEvents1 p with
    | .error e => .error e
    | .ok ev =>
      match poolsEvents rest with
      | .error e => .error e
      | .ok evs => .ok (ev ++ evs)

/-- The volume-only emission for one dataset at full detail: the volsize
sample when the libzfs type enum is VOLUME, nothing otherwise. -/
def volEvents (ds : Dataset) : Except Err (List Event) :=
  if ds.typeName == "VOLUME" then
    match getParsedProp ds.properties "volsize" with
    | .error e => .error e
    | .ok v => .ok [⟨"volsize_bytes", [ds.poolName, ds.name], v⟩]
  else .ok []

/-- The full-detail dataset emission: one sample per dsmetrics row, in
dictionary order, each labeled `[pool, dataset]`. -/
def fullEvents (ds : Dataset) : Except Err (List Event) :=
  match getParsedProp ds.properties "used" with
  | .error e => .error e
  | .ok u =>
    match getParsedProp ds.properties "usedbydataset" with
    | .error e => .error e
    | .ok ub =>
      match getParsedProp ds.properties "available" with
      | .error e => .error e
      | .ok av =>
        match creationGetter ds with
        | .error e => .error e
        | .ok cr =>
          match typeGetter ds with
          | .error e => .error e
          | .ok ty =>
            .ok [⟨"used_bytes", [ds.poolName, ds.name], u⟩,
                 ⟨"usedbydataset_bytes", [ds.poolName, ds.name], ub⟩,
                 ⟨"available_bytes", [ds.poolName, ds.name], av⟩,
                 ⟨"atime_enabled", [ds.poolName, ds.name], atimeGetter ds⟩,
                 ⟨"creation_date", [ds.poolName, ds.name], cr⟩,
                 ⟨"type", [ds.poolName, ds.name], ty⟩]

/-- The dataset loop body for one dataset: skip when deeper than the
limit, summary (used bytes only) at the limit, full detail below it —
with the volume-only samples added first, as in the source. -/
def datasetEvents1 (limit : Int) (ds : Dataset) : Except Err (List Event) :=
  if (depth ds.name : Int) > limit then .ok []
  else if (depth ds.name : Int) = limit then
    match getParsedProp ds.properties "used" with
    | .error e => .error e
    | .ok u => .ok [⟨"used_bytes", [ds.poolName, ds.name], u⟩]
  else
    match volEvents ds with
    | .error e => .error e
    | .ok vev =>
      match fullEvents ds with
      | .error e => .error e
      | .ok fev => .ok (vev ++ fev)

/-- The full dataset loop, over the live dataset list in order. -/
def datasetsEvents (limit : Int) : List Dataset → Except Err (List Event)
  | [] => .ok []
  | ds :: rest =>
    match datasetEvents1 limit ds with
    | .error e => .error e
    | .ok ev =>
      match datasetsEvents limit rest with
      | .error e => .error e
      | .ok evs => .ok (ev ++ evs)

/-- One gauge metric family as yielded to the sink: its metric name, help
text, label names and accumulated samples. -/
structure Series where
  name : String
  help : String
  labelNames : List String
  samples : List (List String × Int)
  deriving DecidableEq, Repr

/-- The samples of the family stored under a given dictionary key, in
emission order. -/
def samplesFor (k : String) (events : List Event) : List (List String × Int) :=
  (events.filter (fun e => e.key == k)).map (fun e => (e.labels, e.value))

/-- The families built and yielded by the collector: the three pool
families (names formatted as `zfs_pool_{p}_bytes`), then the dataset
families for dsmetrics and volmetrics in insertion order (names formatted
as `zfs_dataset_{k}`). -/
def buildSeries (pev dev : List Event) : List Series :=
  (pmetrics.map (fun p =>
    { name := "zfs_pool_" ++ p ++ "_bytes",
      help := "ZFS Pool " ++ p ++ " in bytes",
      labelNames := ["pool"],
      samples := samplesFor p pev }))
  ++ ((dsmetrics ++ volmetrics).map (fun kv =>
    { name := "zfs_dataset_" ++ kv.1,
      help := kv.2,
      labelNames := ["pool", "dataset"],
      samples := samplesFor kv.1 dev }))

/-- The volumes_metrics dictionary of the source: created empty and never
written to, so its values() loop yields no family. -/
def volumes_metrics : List Series := []

/-- The collector object: the configured depth limit and the exclusion
set stored by the constructor. -/
structure ZFSCollector where
  limit : Int
  exclude : List String
  deriving DecidableEq, Repr

/-- The result of one completed pass: the families yielded, in yield
order, plus the observations recorded on the duration summary. -/
structure Output where
  series : List Series
  observations : List Int
  deriving DecidableEq, Repr

/-- The live ZFS hierarchy read at the top of a pass
(`libzfs.ZFS().pools` and `libzfs.ZFS().datasets`). -/
structure ZFSState where
  pools : List Pool
  datasets : List Dataset
  deriving DecidableEq, Repr

/-- One collection pass.  `src` is the result of enumerating the live
hierarchy: when that enumeration itself raises, the exception escapes the
generator before anything is yielded, so the pass is an error with no
series and no duration observation.  Otherwise the pool loop and the
dataset loop run; any exception in them likewise aborts the pass.  On
success the families are yielded (pool families, then dataset families,
then the empty volumes_metrics) after one duration observation of
`tEnd - tStart`.  The exclude set held by the collector is never read
here, mirroring the source. -/
def collect (c : ZFSCollector) (src : Except Err ZFSState)
    (tStart tEnd : Int) : Except Err Output :=
  match src with
  | .error e => .error e
  | .ok st =>
    match poolsEvents st.pools with
    | .error e => .error e
    | .ok pev =>
      match datasetsEvents c.limit st.datasets with
      | .error e => .error e
      | .ok dev =>
        .ok { series := buildSeries pev dev ++ volumes_metrics,
              observations := [tEnd - tStart] }

/-- What the sink receives as series from a pass: nothing at all when the
pass raised. -/
def yieldedSeries : Except Err Output → List Series
  | .error _ => []
  | .ok o => o.series

/-- Whether a pass completed without raising. -/
def passOk : Except Err Output → Bool
  | .error _ => false
  | .ok _ => true

/-- Total number of samples carried by the series of a pass result whose
label values equal the given list (zero for a failed pass). -/
def countSamplesLabeled (r : Except Err Output) (labels : List String) : Nat :=
  match r with
  | .error _ => 0
  | .ok o =>
    (o.series.map (fun s => (s.samples.filter (fun sa => sa.1 == labels)).length)).sum

/-! ### Shape and error lemmas about the loop bodies -/

lemma getParsedProp_error (props : List (String × Property)) (k : String) (e : Err)
    (h : getParsedProp props k = .error e) :
    e = Err.keyError k ∨ e = Err.coercionError k := by
  unfold getParsedProp at h
  rcases h1 : lookupProp props k with _ | p <;> simp only [h1] at h
  · exact Or.inl (Except.error.inj h).symm
  · rcases h2 : p.parsed with n | b | s <;> simp only [h2] at h
    · cases h
    · exact Or.inr (Except.error.inj h).symm
    · exact Or.inr (Except.error.inj h).symm

lemma getParsedProp_none (props : List (String × Property)) (k : String)
    (h : lookupProp props k = none) :
    getParsedProp props k = .error (Err.keyError k) := by
  unfold getParsedProp
  rw [h]

lemma creationGetter_error (ds : Dataset) (e : Err)
    (h : creationGetter ds = .error e) :
    e = Err.keyError "creation" ∨ e = Err.coercionError "creation" := by
  unfold creationGetter at h
  rcases h1 : lookupProp ds.properties "creation" with _ | p <;> simp only [h1] at h
  · exact Or.inl (Except.error.inj h).symm
  · rcases h2 : parseInt p.rawvalue with _ | n <;> simp only [h2] at h
    · exact Or.inr (Except.error.inj h).symm
    · cases h

lemma typeGetter_error (ds : Dataset) (e : Err)
    (h : typeGetter ds = .error e) :
    e = Err.keyError "type" := by
  unfold typeGetter at h
  rcases h1 : lookupProp ds.properties "type" with _ | p <;> simp only [h1] at h
  · exact (Except.error.inj h).symm
  · rcases h2 : p.parsed with n | b | s <;> simp only [h2] at h <;> cases h

lemma volEvents_shape (ds : Dataset) (vev : List Event)
    (h : volEvents ds = .ok vev) :
    (ds.typeName ≠ "VOLUME" ∧ vev = []) ∨
    (ds.typeName = "VOLUME" ∧ ∃ v, getParsedProp ds.properties "volsize" = .ok v ∧
       vev = [⟨"volsize_bytes", [ds.poolName, ds.name], v⟩]) := by
  unfold volEvents at h
  split at h
  · rename_i hv
    right
    refine ⟨by simpa using hv, ?_⟩
    rcases h1 : getParsedProp ds.properties "volsize" with e | v <;> simp only [h1] at h
    · cases h
    · exact ⟨v, rfl, (Except.ok.inj h).symm⟩
  · rename_i hv
    left
    exact ⟨by simpa using hv, (Except.ok.inj h).symm⟩

lemma volEvents_error (ds : Dataset) (e : Err)
    (h : volEvents ds = .error e) :
    e = Err.keyError "volsize" ∨ e = Err.coercionError "volsize" := by
  unfold volEvents at h
  split at h
  · rcases h1 : getParsedProp ds.properties "volsize" with e1 | v <;> simp only [h1] at h
    · have h2 := getParsedProp_error _ _ _ h1
      rwa [Except.error.inj h] at h2
    · cases h
  · cases h

lemma fullEvents_shape (ds : Dataset) (fev : List Event)
    (h : fullEvents ds = .ok fev) :
    ∃ u ub av cr ty,
      getParsedProp ds.properties "used" = .ok u ∧
      getParsedProp ds.properties "usedbydataset" = .ok ub ∧
      getParsedProp ds.properties "available" = .ok av ∧
      creationGetter ds = .ok cr ∧
      typeGetter ds = .ok ty ∧
      fev = [⟨"used_bytes", [ds.poolName, ds.name], u⟩,
             ⟨"usedbydataset_bytes", [ds.poolName, ds.name], ub⟩,
             ⟨"available_bytes", [ds.poolName, ds.name], av⟩,
             ⟨"atime_enabled", [ds.poolName, ds.name], atimeGetter ds⟩,
             ⟨"creation_date", [ds.poolName, ds.name], cr⟩,
             ⟨"type", [ds.poolName, ds.name], ty⟩] := by
  unfold fullEvents at h
  rcases h1 : getParsedProp ds.properties "used" with e | u <;> simp only [h1] at h
  · cases h
  rcases h2 : getParsedProp ds.properties "usedbydataset" with e | ub <;> simp only [h2] at h
  · cases h
  rcases h3 : getParsedProp ds.properties "available" with e | av <;> simp only [h3] at h
  · cases h
  rcases h4 : creationGetter ds with e | cr <;> simp only [h4] at h
  · cases h
  rcases h5 : typeGetter ds with e | ty <;> simp only [h5] at h
  · cases h
  exact ⟨u, ub, av, cr, ty, rfl, rfl, rfl, rfl, rfl, (Except.ok.inj h).symm⟩

lemma fullEvents_error (ds : Dataset) (e : Err)
    (h : fullEvents ds = .error e) :
    ∃ k, k ∈ ["used", "usedbydataset", "available", "creation", "type"] ∧
      (e = Err.keyError k ∨ e = Err.coercionError k) := by
  unfold fullEvents at h
  rcases h1 : getParsedProp ds.properties "used" with e1 | u <;> simp only [h1] at h
  · have h2 := getParsedProp_error _ _ _ h1
    rw [Except.error.inj h] at h2
    exact ⟨"used", by simp, h2⟩
  rcases h2 : getParsedProp ds.properties "usedbydataset" with e1 | ub <;> simp only [h2] at h
  · have h3 := getParsedProp_error _ _ _ h2
    rw [Except.error.inj h] at h3
    exact ⟨"usedbydataset", by simp, h3⟩
  rcases h3 : getParsedProp ds.properties "available" with e1 | av <;> simp only [h3] at h
  · have h4 := getParsedProp_error _ _ _ h3
    rw [Except.error.inj h] at h4
    exact ⟨"available", by simp, h4⟩
  rcases h4 : creationGetter ds with e1 | cr <;> simp only [h4] at h
  · have h5 := creationGetter_error _ _ h4
    rw [Except.error.inj h] at h5
    exact ⟨"creation", by simp, h5⟩
  rcases h5 : typeGetter ds with e1 | ty <;> simp only [h5] at h
  · have h6 := typeGetter_error _ _ h5
    rw [Except.error.inj h] at h6
    exact ⟨"type", by simp, Or.inl h6⟩
  cases h

lemma datasetEvents1_gt (limit : Int) (ds : Dataset) (evs : List Event)
    (hgt : (depth ds.name : Int) > limit)
    (h : datasetEvents1 limit ds = .ok evs) : evs = [] := by
  unfold datasetEvents1 at h
  rw [if_pos hgt] at h
  exact (Except.ok.inj h).symm

lemma datasetEvents1_at_limit (limit : Int) (ds : Dataset) (evs : List Event)
    (heq : (depth ds.name : Int) = limit)
    (h : datasetEvents1 limit ds = .ok evs) :
    ∃ u, getParsedProp ds.properties "used" = .ok u ∧
      evs = [⟨"used_bytes", [ds.poolName, ds.name], u⟩] := by
  unfold datasetEvents1 at h
  rw [if_neg (by omega), if_pos heq] at h
  rcases h1 : getParsedProp ds.properties "used" with e | u <;> simp only [h1] at h
  · cases h
  · exact ⟨u, rfl, (Except.ok.inj h).symm⟩

lemma datasetEvents1_lt (limit : Int) (ds : Dataset) (evs : List Event)
    (hlt : (depth ds.name : Int) < limit)
    (h : datasetEvents1 limit ds = .ok evs) :
    ∃ vev fev, volEvents ds = .ok vev ∧ fullEvents ds = .ok fev ∧
      evs = vev ++ fev := by
  unfold datasetEvents1 at h
  rw [if_neg (by omega), if_neg (by omega)] at h
  rcases h1 : volEvents ds with e | vev <;> simp only [h1] at h
  · cases h
  · rcases h2 : fullEvents ds with e | fev <;> simp only [h2] at h
    · cases h
    · exact ⟨vev, fev, rfl, rfl, (Except.ok.inj h).symm⟩

lemma datasetEvents1_error_key (limit : Int) (ds : Dataset) (e : Err)
    (h : datasetEvents1 limit ds = .error e) :
    ∃ k, k ∈ ["used", "usedbydataset", "available", "creation", "type", "volsize"] ∧
      (e = Err.keyError k ∨ e = Err.coercionError k) := by
  unfold datasetEvents1 at h
  split at h
  · cases h
  · split at h
    · rcases h1 : getParsedProp ds.properties "used" with e1 | u <;> simp only [h1] at h
      · have h2 := getParsedProp_error _ _ _ h1
        rw [Except.error.inj h] at h2
        exact ⟨"used", by simp, h2⟩
      · cases h
    · rcases h1 : volEvents ds with e1 | vev <;> simp only [h1] at h
      · have h2 := volEvents_error _ _ h1
        rw [Except.error.inj h] at h2
        exact ⟨"volsize", by simp, h2⟩
      · rcases h2 : fullEvents ds with e2 | fev <;> simp only [h2] at h
        · obtain ⟨k, hk, hke⟩ := fullEvents_error _ _ h2
          rw [Except.error.inj h] at hke
          refine ⟨k, ?_, hke⟩
          simp only [List.mem_cons, List.not_mem_nil, or_false] at hk ⊢
          tauto
        · cases h

lemma datasetsEvents_ok_of_mem (limit : Int) (datasets : List Dataset)
    (ds : Dataset) (evs : List Event)
    (hmem : ds ∈ datasets) (h : datasetsEvents limit datasets = .ok evs) :
    ∃ devs, datasetEvents1 limit ds = .ok devs := by
  induction datasets generalizing evs with
  | nil => cases hmem
  | cons d rest ih =>
    unfold datasetsEvents at h
    rcases h1 : datasetEvents1 limit d with e | ev <;> simp only [h1] at h
    · cases h
    · rcases h2 : datasetsEvents limit rest with e | evs2 <;> simp only [h2] at h
      · cases h
      · rcases List.mem_cons.mp hmem with heq | hmem2
        · exact ⟨ev, by rw [heq]; exact h1⟩
        · exact ih evs2 hmem2 h2

lemma collect_ok_shape (c : ZFSCollector) (st : ZFSState) (tS tE : Int) (out : Output)
    (h : collect c (.ok st) tS tE = .ok out) :
    ∃ pev dev, poolsEvents st.pools = .ok pev ∧
      datasetsEvents c.limit st.datasets = .ok dev ∧
      out = { series := buildSeries pev dev ++ volumes_metrics,
              observations := [tE - tS] } := by
  unfold collect at h
  rcases hp : poolsEvents st.pools with e | pev <;> simp only [hp] at h
  · cases h
  · rcases hd : datasetsEvents c.limit st.datasets with e | dev <;> simp only [hd] at h
    · cases h
    · exact ⟨pev, dev, rfl, rfl, (Except.ok.inj h).symm⟩

lemma getParsedProp_ok_lookup (props : List (String × Property)) (k : String) (n : Int)
    (h : getParsedProp props k = .ok n) : lookupProp props k ≠ none := by
  intro hn
  rw [getParsedProp_none _ _ hn] at h
  cases h

lemma creationGetter_ok_shape (ds : Dataset) (cr : Int)
    (h : creationGetter ds = .ok cr) :
    lookupProp ds.properties "creation" ≠ none ∧
    ∀ p, lookupProp ds.properties "creation" = some p → parseInt p.rawvalue ≠ none := by
  unfold creationGetter at h
  rcases h1 : lookupProp ds.properties "creation" with _ | p <;> simp only [h1] at h
  · cases h
  · rcases h2 : parseInt p.rawvalue with _ | n <;> simp only [h2] at h
    · cases h
    · refine ⟨by simp, ?_⟩
      intro q hq
      obtain rfl := Option.some.inj hq
      rw [h2]
      simp

lemma typeGetter_ok_lookup (ds : Dataset) (ty : Int)
    (h : typeGetter ds = .ok ty) : lookupProp ds.properties "type" ≠ none := by
  intro hn
  unfold typeGetter at h
  rw [hn] at h
  cases h

lemma volEvents_ok_volume (ds : Dataset) (vev : List Event)
    (hvol : ds.typeName = "VOLUME") (h : volEvents ds = .ok vev) :
    lookupProp ds.properties "volsize" ≠ none := by
  rcases volEvents_shape _ _ h with ⟨hnv, _⟩ | ⟨_, v, hg, _⟩
  · exact absurd hvol hnv
  · exact getParsedProp_ok_lookup _ _ _ hg

lemma poolEvents1_ok_props (pool : Pool) (ev : List Event)
    (h : poolEvents1 pool = .ok ev) :
    ∀ k ∈ pmetrics, lookupProp pool.properties k ≠ none := by
  unfold poolEvents1 at h
  rcases h1 : getParsedProp pool.properties "size" with e | s <;> simp only [h1] at h
  · cases h
  rcases h2 : getParsedProp pool.properties "allocated" with e | a <;> simp only [h2] at h
  · cases h
  rcases h3 : getParsedProp pool.properties "freeing" with e | f <;> simp only [h3] at h
  · cases h
  intro k hk
  simp only [pmetrics, List.mem_cons, List.not_mem_nil, or_false] at hk
  rcases hk with rfl | rfl | rfl
  · exact getParsedProp_ok_lookup _ _ _ h1
  · exact getParsedProp_ok_lookup _ _ _ h2
  · exact getParsedProp_ok_lookup _ _ _ h3

lemma poolsEvents_ok_of_mem (pools : List Pool) (pool : Pool) (evs : List Event)
    (hmem : pool ∈ pools) (h : poolsEvents pools = .ok evs) :
    ∃ ev, poolEvents1 pool = .ok ev := by
  induction pools generalizing evs with
  | nil => cases hmem
  | cons p rest ih =>
    unfold poolsEvents at h
    rcases h1 : poolEvents1 p with e | ev <;> simp only [h1] at h
    · cases h
    · rcases h2 : poolsEvents rest with e | evs2 <;> simp only [h2] at h
      · cases h
      · rcases List.mem_cons.mp hmem with heq | hmem2
        · exact ⟨ev, by rw [heq]; exact h1⟩
        · exact ih evs2 hmem2 h2

lemma datasetEvents1_bad (limit : Int) (ds : Dataset)
    (hbad :
      ((depth ds.name : Int) = limit ∧ lookupProp ds.properties "used" = none)
      ∨ ((depth ds.name : Int) < limit ∧
          ∃ k ∈ ["used", "usedbydataset", "available", "creation", "type"],
            lookupProp ds.properties k = none)
      ∨ ((depth ds.name : Int) < limit ∧ ds.typeName = "VOLUME" ∧
          lookupProp ds.properties "volsize" = none)
      ∨ ((depth ds.name : Int) < limit ∧
          ∃ p, lookupProp ds.properties "creation" = some p ∧
            parseInt p.rawvalue = none)) :
    ∀ evs, datasetEvents1 limit ds ≠ .ok evs := by
  intro evs h
  rcases hbad with ⟨heq, hu⟩ | ⟨hlt, k, hk, hn⟩ | ⟨hlt, hvol, hn⟩ | ⟨hlt, p, hp, hpn⟩
  · obtain ⟨u, hug, _⟩ := datasetEvents1_at_limit _ _ _ heq h
    rw [getParsedProp_none _ _ hu] at hug
    cases hug
  · obtain ⟨vev, fev, hv, hf, _⟩ := datasetEvents1_lt _ _ _ hlt h
    obtain ⟨u, ub, av, cr, ty, h1, h2, h3, h4, h5, _⟩ := fullEvents_shape _ _ hf
    simp only [List.mem_cons, List.not_mem_nil, or_false] at hk
    rcases hk with rfl | rfl | rfl | rfl | rfl
    · exact getParsedProp_ok_lookup _ _ _ h1 hn
    · exact getParsedProp_ok_lookup _ _ _ h2 hn
    · exact getParsedProp_ok_lookup _ _ _ h3 hn
    · exact (creationGetter_ok_shape _ _ h4).1 hn
    · exact typeGetter_ok_lookup _ _ h5 hn
  · obtain ⟨vev, fev, hv, hf, _⟩ := datasetEvents1_lt _ _ _ hlt h
    exact volEvents_ok_volume _ _ hvol hv hn
  · obtain ⟨vev, fev, hv, hf, _⟩ := datasetEvents1_lt _ _ _ hlt h
    obtain ⟨u, ub, av, cr, ty, _, _, _, h4, _, _⟩ := fullEvents_shape _ _ hf
    exact (creationGetter_ok_shape _ _ h4).2 p hp hpn

lemma datasetEvents1_error_not_atime (limit : Int) (d : Dataset) (e : Err)
    (h : datasetEvents1 limit d = .error e) :
    e ≠ Err.keyError "atime" ∧ e ≠ Err.coercionError "atime" := by
  obtain ⟨k, hk, hke⟩ := datasetEvents1_error_key _ _ _ h
  have hkne : k ≠ "atime" := by
    intro hkeq
    rw [hkeq] at hk
    exact absurd hk (by decide)
  constructor
  · intro heq
    rcases hke with hke | hke
    · rw [heq] at hke
      exact hkne (Err.keyError.inj hke).symm
    · rw [heq] at hke
      cases hke
  · intro heq
    rcases hke with hke | hke
    · rw [heq] at hke
      cases hke
    · rw [heq] at hke
      exact hkne (Err.coercionError.inj hke).symm

/-! ### Concrete objects used by witnesses and counterexamples -/

/-- An integer-valued property with a matching raw string. -/
def propInt (r : String) (n : Int) : Property := { rawvalue := r, parsed := .int n }

/-- A pool named tank with the three pool properties of scenario A. -/
def poolTank : Pool :=
  { name := "tank",
    properties :=
      [("size", propInt "1000" 1000),
       ("allocated", propInt "400" 400),
       ("freeing", propInt "0" 0)] }

/-- A depth-1 filesystem dataset with the standard catalog properties
present and the atime property absent. -/
def dsA : Dataset :=
  { name := "tank/data", poolName := "tank", typeName := "FILESYSTEM",
    properties :=
      [("used", propInt "500" 500),
       ("usedbydataset", propInt "300" 300),
       ("available", propInt "1000" 1000),
       ("creation", { rawvalue := "1600000000", parsed := .str "1600000000" }),
       ("type", { rawvalue := "filesystem", parsed := .str "filesystem" })] }

/-- The events the collector emits for dsA at limit 2. -/
def evsA : List Event :=
  [⟨"used_bytes", ["tank", "tank/data"], 500⟩,
   ⟨"usedbydataset_bytes", ["tank", "tank/data"], 300⟩,
   ⟨"available_bytes", ["tank", "tank/data"], 1000⟩,
   ⟨"atime_enabled", ["tank", "tank/data"], 0⟩,
   ⟨"creation_date", ["tank", "tank/data"], 1600000000⟩,
   ⟨"type", ["tank", "tank/data"], 0⟩]

/-- A depth-1 dataset whose used property is missing. -/
def dsBad : Dataset :=
  { name := "tank/bad", poolName := "tank", typeName := "FILESYSTEM",
    properties :=
      [("usedbydataset", propInt "7" 7),
       ("available", propInt "9" 9),
       ("creation", { rawvalue := "1", parsed := .str "1" }),
       ("type", { rawvalue := "filesystem", parsed := .str "filesystem" })] }

/-- A depth-1 dataset whose type property carries an unknown value. -/
def dsW : Dataset :=
  { name := "tank/weird", poolName := "tank", typeName := "FILESYSTEM",
    properties :=
      [("used", propInt "1" 1),
       ("usedbydataset", propInt "1" 1),
       ("available", propInt "1" 1),
       ("atime", { rawvalue := "on", parsed := .bool true }),
       ("creation", { rawvalue := "123", parsed := .str "123" }),
       ("type", { rawvalue := "weird", parsed := .str "weird" })] }

/-- The events the collector emits for dsW at limit 2. -/
def evsW : List Event :=
  [⟨"used_bytes", ["tank", "tank/weird"], 1⟩,
   ⟨"usedbydataset_bytes", ["tank", "tank/weird"], 1⟩,
   ⟨"available_bytes", ["tank", "tank/weird"], 1⟩,
   ⟨"atime_enabled", ["tank", "tank/weird"], 1⟩,
   ⟨"creation_date", ["tank", "tank/weird"], 123⟩,
   ⟨"type", ["tank", "tank/weird"], -1⟩]

/-- A depth-1 volume dataset with a volsize property. -/
def dsVol : Dataset :=
  { name := "tank/vol1", poolName := "tank", typeName := "VOLUME",
    properties :=
      [("used", propInt "100" 100),
       ("usedbydataset", propInt "100" 100),
       ("available", propInt "100" 100),
       ("atime", { rawvalue := "off", parsed := .bool false }),
       ("creation", { rawvalue := "42", parsed := .str "42" }),
       ("type", { rawvalue := "volume", parsed := .str "volume" }),
       ("volsize", propInt "2048" 2048)] }

/-- The events the collector emits for dsVol at limit 2: the volume-only
sample first, then the full dataset catalog. -/
def evsVol : List Event :=
  [⟨"volsize_bytes", ["tank", "tank/vol1"], 2048⟩,
   ⟨"used_bytes", ["tank", "tank/vol1"], 100⟩,
   ⟨"usedbydataset_bytes", ["tank", "tank/vol1"], 100⟩,
   ⟨"available_bytes", ["tank", "tank/vol1"], 100⟩,
   ⟨"atime_enabled", ["tank", "tank/vol1"], 0⟩,
   ⟨"creation_date", ["tank", "tank/vol1"], 42⟩,
   ⟨"type", ["tank", "tank/vol1"], 1⟩]

/-- A collector whose exclusion set names dsA. -/
def cEx : ZFSCollector := { limit := 2, exclude := ["tank/data"] }

/-- The pass result over an empty hierarchy at limit 2 with duration 5. -/
def outEmpty : Output :=
  { series := buildSeries [] [] ++ volumes_metrics, observations := [5] }

/-! ### The claims -/

/-- C1: for every configured non-negative limit L, a dataset at depth
greater than L contributes no samples to the pass; a dataset at depth
exactly L contributes exactly one sample, the used-bytes gauge labeled
with its pool and dataset name; a dataset at depth below L contributes
one sample per dataset-catalog row, preceded by the volsize sample
exactly when its libzfs type is VOLUME, every sample labeled with its
pool and dataset name. -/
theorem C1_depth_policy (limit : Int) (ds : Dataset) (evs : List Event)
    (hL : 0 ≤ limit)
    (h : datasetEvents1 limit ds = .ok evs) :
    ((depth ds.name : Int) > limit → evs = [])
  ∧ ((depth ds.name : Int) = limit →
      ∃ v, evs = [⟨"used_bytes", [ds.poolName, ds.name], v⟩])
  ∧ ((depth ds.name : Int) < limit →
      evs.map Event.key =
        (if ds.typeName == "VOLUME" then ["volsize_bytes"] else [])
          ++ ["used_bytes", "usedbydataset_bytes", "available_bytes",
              "atime_enabled", "creation_date", "type"]
      ∧ ∀ ev ∈ evs, ev.labels = [ds.poolName, ds.name]) := by
  refine ⟨fun hgt => datasetEvents1_gt _ _ _ hgt h, fun heq => ?_, fun hlt => ?_⟩
  · obtain ⟨u, _, hev⟩ := datasetEvents1_at_limit _ _ _ heq h
    exact ⟨u, hev⟩
  · obtain ⟨vev, fev, hv, hf, rfl⟩ := datasetEvents1_lt _ _ _ hlt h
    obtain ⟨u, ub, av, cr, ty, _, _, _, _, _, rfl⟩ := fullEvents_shape _ _ hf
    rcases volEvents_shape _ _ hv with ⟨hnv, rfl⟩ | ⟨hvol, v, _, rfl⟩
    · refine ⟨by simp [hnv], ?_⟩
      intro ev hev
      fin_cases hev <;> rfl
    · refine ⟨by simp [hvol], ?_⟩
      intro ev hev
      fin_cases hev <;> rfl

/-- Witness for C1 at a concrete full-detail dataset. -/
theorem C1_depth_policy_witness :
    ((0 : Int) ≤ 2 ∧ datasetEvents1 2 dsA = .ok evsA) ∧
    (((depth dsA.name : Int) > 2 → evsA = [])
     ∧ ((depth dsA.name : Int) = 2 →
         ∃ v, evsA = [⟨"used_bytes", [dsA.poolName, dsA.name], v⟩])
     ∧ ((depth dsA.name : Int) < 2 →
         evsA.map Event.key =
           (if dsA.typeName == "VOLUME" then ["volsize_bytes"] else [])
             ++ ["used_bytes", "usedbydataset_bytes", "available_bytes",
                 "atime_enabled", "creation_date", "type"]
         ∧ ∀ ev ∈ evsA, ev.labels = [dsA.poolName, dsA.name])) :=
  ⟨⟨by decide, by decide⟩, C1_depth_policy 2 dsA evsA (by decide) (by decide)⟩

/-- C2 counterexample: a dataset whose used property is missing aborts
the whole pass — the pass does not complete, and the healthy dataset
dsA in the same pass gets no samples at all. -/
theorem C2_counterexample :
    passOk (collect ⟨2, []⟩ (.ok ⟨[], [dsBad, dsA]⟩) 0 1) = false ∧
    countSamplesLabeled (collect ⟨2, []⟩ (.ok ⟨[], [dsBad, dsA]⟩) 0 1)
      ["tank", "tank/data"] = 0 :=
  ⟨by decide, by decide⟩

/-- C2 amended: only the atime property tolerates absence — a missing
atime yields the default sample 0 and no pass error is ever attributable
to atime — while every other fetch aborts the entire pass when its key
is missing: used on a dataset at the depth limit; used, usedbydataset,
available, creation or type on a dataset below the limit; volsize on a
volume below the limit; size, allocated or freeing on any pool.  A
creation raw value that does not parse as an integer (the only numeric
coercion collect performs) aborts likewise.  In every such case no
samples at all are produced for that cycle. -/
theorem C2_pass_aborts (c : ZFSCollector) (pools : List Pool)
    (datasets : List Dataset) (tS tE : Int)
    (hbad :
      (∃ pool ∈ pools, ∃ k ∈ pmetrics, lookupProp pool.properties k = none)
      ∨ (∃ ds ∈ datasets,
          ((depth ds.name : Int) = c.limit ∧ lookupProp ds.properties "used" = none)
          ∨ ((depth ds.name : Int) < c.limit ∧
              ∃ k ∈ ["used", "usedbydataset", "available", "creation", "type"],
                lookupProp ds.properties k = none)
          ∨ ((depth ds.name : Int) < c.limit ∧ ds.typeName = "VOLUME" ∧
              lookupProp ds.properties "volsize" = none)
          ∨ ((depth ds.name : Int) < c.limit ∧
              ∃ p, lookupProp ds.properties "creation" = some p ∧
                parseInt p.rawvalue = none))) :
    passOk (collect c (.ok ⟨pools, datasets⟩) tS tE) = false
  ∧ (∀ d : Dataset, lookupProp d.properties "atime" = none → atimeGetter d = 0)
  ∧ (∀ (limit : Int) (d : Dataset) (e : Err), datasetEvents1 limit d = .error e →
      e ≠ Err.keyError "atime" ∧ e ≠ Err.coercionError "atime") := by
  refine ⟨?_, ?_, ?_⟩
  · cases hr : collect c (.ok ⟨pools, datasets⟩) tS tE with
    | error e => rfl
    | ok out =>
      exfalso
      obtain ⟨pev, dev, hp, hdv, _⟩ := collect_ok_shape _ _ _ _ _ hr
      rcases hbad with ⟨pool, hpm, k, hk, hn⟩ | ⟨ds, hdm, hdbad⟩
      · obtain ⟨evp, hevp⟩ := poolsEvents_ok_of_mem _ _ _ hpm hp
        exact poolEvents1_ok_props _ _ hevp k hk hn
      · obtain ⟨devs, hds⟩ := datasetsEvents_ok_of_mem _ _ _ _ hdm hdv
        exact datasetEvents1_bad c.limit ds hdbad devs hds
  · intro d hn
    unfold atimeGetter
    rw [hn]
  · intro limit d e he
    exact datasetEvents1_error_not_atime limit d e he

/-- Witness for the amended C2 at a concrete pass containing a dataset
below the limit whose used property is missing. -/
theorem C2_pass_aborts_witness :
    ((∃ pool ∈ ([] : List Pool), ∃ k ∈ pmetrics, lookupProp pool.properties k = none)
     ∨ (∃ ds ∈ [dsBad, dsA],
         ((depth ds.name : Int) = 2 ∧ lookupProp ds.properties "used" = none)
         ∨ ((depth ds.name : Int) < 2 ∧
             ∃ k ∈ ["used", "usedbydataset", "available", "creation", "type"],
               lookupProp ds.properties k = none)
         ∨ ((depth ds.name : Int) < 2 ∧ ds.typeName = "VOLUME" ∧
             lookupProp ds.properties "volsize" = none)
         ∨ ((depth ds.name : Int) < 2 ∧
             ∃ p, lookupProp ds.properties "creation" = some p ∧
               parseInt p.rawvalue = none)))
    ∧ (passOk (collect ⟨2, []⟩ (.ok ⟨[], [dsBad, dsA]⟩) 0 1) = false
       ∧ (∀ d : Dataset, lookupProp d.properties "atime" = none → atimeGetter d = 0)
       ∧ (∀ (limit : Int) (d : Dataset) (e : Err), datasetEvents1 limit d = .error e →
           e ≠ Err.keyError "atime" ∧ e ≠ Err.coercionError "atime")) := by
  have hbad :
      (∃ pool ∈ ([] : List Pool), ∃ k ∈ pmetrics, lookupProp pool.properties k = none)
      ∨ (∃ ds ∈ [dsBad, dsA],
          ((depth ds.name : Int) = 2 ∧ lookupProp ds.properties "used" = none)
          ∨ ((depth ds.name : Int) < 2 ∧
              ∃ k ∈ ["used", "usedbydataset", "available", "creation", "type"],
                lookupProp ds.properties k = none)
          ∨ ((depth ds.name : Int) < 2 ∧ ds.typeName = "VOLUME" ∧
              lookupProp ds.properties "volsize" = none)
          ∨ ((depth ds.name : Int) < 2 ∧
              ∃ p, lookupProp ds.properties "creation" = some p ∧
                parseInt p.rawvalue = none)) := by
    refine Or.inr ⟨dsBad, ?_, Or.inr (Or.inl ⟨?_, "used", ?_, ?_⟩)⟩ <;> decide
  exact ⟨hbad, C2_pass_aborts ⟨2, []⟩ [] [dsBad, dsA] 0 1 hbad⟩

/-- C3 counterexample: a dataset named in the exclusion set still
produces its full six samples — exclusion is never consulted. -/
theorem C3_counterexample :
    "tank/data" ∈ cEx.exclude ∧
    countSamplesLabeled (collect cEx (.ok ⟨[], [dsA]⟩) 0 0)
      ["tank", "tank/data"] = 6 :=
  ⟨by decide, by decide⟩

/-- C3 amended: the exclusion set is accepted at construction and stored
but never consulted by collect — the pass result is identical under any
two exclusion sets, so matching datasets keep producing samples per the
depth rule alone. -/
theorem C3_exclude_never_consulted (limit : Int) (ex1 ex2 : List String)
    (src : Except Err ZFSState) (tS tE : Int) :
    collect ⟨limit, ex1⟩ src tS tE = collect ⟨limit, ex2⟩ src tS tE := by
  cases src <;> rfl

/-- C4: when enumerating the ZFS hierarchy fails, the pass propagates
that very error to the sink, yields zero series, and does not count as a
completed pass. -/
theorem C4_enumeration_failure (c : ZFSCollector) (e : Err) (tS tE : Int) :
    collect c (.error e) tS tE = .error e
  ∧ yieldedSeries (collect c (.error e) tS tE) = []
  ∧ passOk (collect c (.error e) tS tE) = false :=
  ⟨rfl, rfl, rfl⟩

/-- C5: at full detail the atime-enabled sample is present with value 0
when the atime property is absent, and 1 exactly when the parsed value is
truthy; and no pass failure is ever attributable to the atime property —
every possible pass error names some other property. -/
theorem C5_atime_fallback (limit : Int) (ds : Dataset) (evs : List Event) (e : Err)
    (hlt : (depth ds.name : Int) < limit) :
    (datasetEvents1 limit ds = .ok evs →
      (evs.filter (fun ev => ev.key == "atime_enabled")).map Event.value =
        [match lookupProp ds.properties "atime" with
         | none => 0
         | some p => if truthy p.parsed then 1 else 0])
  ∧ (datasetEvents1 limit ds = .error e →
      e ≠ Err.keyError "atime" ∧ e ≠ Err.coercionError "atime") := by
  constructor
  · intro h
    obtain ⟨vev, fev, hv, hf, rfl⟩ := datasetEvents1_lt _ _ _ hlt h
    obtain ⟨u, ub, av, cr, ty, _, _, _, _, _, rfl⟩ := fullEvents_shape _ _ hf
    rcases volEvents_shape _ _ hv with ⟨_, rfl⟩ | ⟨_, v, _, rfl⟩ <;>
      simp [atimeGetter]
  · intro h
    obtain ⟨k, hk, hke⟩ := datasetEvents1_error_key _ _ _ h
    have hkne : k ≠ "atime" := by
      intro hkeq
      rw [hkeq] at hk
      exact absurd hk (by decide)
    constructor
    · intro heq
      rcases hke with hke | hke
      · rw [heq] at hke
        exact hkne (Err.keyError.inj hke).symm
      · rw [heq] at hke
        cases hke
    · intro heq
      rcases hke with hke | hke
      · rw [heq] at hke
        cases hke
      · rw [heq] at hke
        exact hkne (Err.coercionError.inj hke).symm

/-- Witness for C5 at a concrete dataset missing its atime property. -/
theorem C5_atime_fallback_witness :
    ((depth dsA.name : Int) < 2) ∧
    ((datasetEvents1 2 dsA = .ok evsA →
       (evsA.filter (fun ev => ev.key == "atime_enabled")).map Event.value =
         [match lookupProp dsA.properties "atime" with
          | none => 0
          | some p => if truthy p.parsed then 1 else 0])
     ∧ (datasetEvents1 2 dsA = .error (Err.keyError "used") →
        Err.keyError "used" ≠ Err.keyError "atime" ∧
        Err.keyError "used" ≠ Err.coercionError "atime")) :=
  ⟨by decide, C5_atime_fallback 2 dsA evsA (Err.keyError "used") (by decide)⟩

/-- C6: for a full-detail dataset whose type property is present, the
type sample appears exactly once, and its value follows the fixed
mapping filesystem 0, volume 1, snapshot 2, bookmark 3, with -1 for any
other parsed value. -/
theorem C6_type_mapping (limit : Int) (ds : Dataset) (evs : List Event) (p : Property)
    (hlt : (depth ds.name : Int) < limit)
    (h : datasetEvents1 limit ds = .ok evs)
    (hty : lookupProp ds.properties "type" = some p) :
    (evs.filter (fun ev => ev.key == "type")).map Event.value =
      [match p.parsed with
       | .str s =>
         if s = "filesystem" then 0
         else if s = "volume" then 1
         else if s = "snapshot" then 2
         else if s = "bookmark" then 3
         else -1
       | _ => -1]
  ∧ (evs.filter (fun ev => ev.key == "type")).length = 1 := by
  obtain ⟨vev, fev, hv, hf, rfl⟩ := datasetEvents1_lt _ _ _ hlt h
  obtain ⟨u, ub, av, cr, ty, _, _, _, _, hyg, rfl⟩ := fullEvents_shape _ _ hf
  have hty2 : typeGetter ds = .ok (match p.parsed with
      | .str s =>
        if s = "filesystem" then (0 : Int)
        else if s = "volume" then 1
        else if s = "snapshot" then 2
        else if s = "bookmark" then 3
        else -1
      | _ => -1) := by
    unfold typeGetter
    rw [hty]
    rcases hp : p.parsed with n | b | s <;> simp [hp]
  rw [hyg] at hty2
  have hval := Except.ok.inj hty2
  rcases volEvents_shape _ _ hv with ⟨_, rfl⟩ | ⟨_, v, _, rfl⟩ <;>
    constructor <;> simp [hval]

/-- Witness for C6 at a concrete dataset with an unknown type value. -/
theorem C6_type_mapping_witness :
    ((depth dsW.name : Int) < 2 ∧ datasetEvents1 2 dsW = .ok evsW ∧
     lookupProp dsW.properties "type" = some ⟨"weird", PVal.str "weird"⟩) ∧
    ((evsW.filter (fun ev => ev.key == "type")).map Event.value =
       [match (⟨"weird", PVal.str "weird"⟩ : Property).parsed with
        | .str s =>
          if s = "filesystem" then 0
          else if s = "volume" then 1
          else if s = "snapshot" then 2
          else if s = "bookmark" then 3
          else -1
        | _ => -1]
     ∧ (evsW.filter (fun ev => ev.key == "type")).length = 1) :=
  ⟨⟨by decide, by decide, by decide⟩,
   C6_type_mapping 2 dsW evsW ⟨"weird", PVal.str "weird"⟩ (by decide) (by decide) (by decide)⟩

/-- C7: a dataset whose libzfs type is not VOLUME never yields a volsize
sample at any depth; a VOLUME dataset yields no volsize sample at
summary level or beyond the limit, and exactly one at full detail. -/
theorem C7_volsize_gating (limit : Int) (ds : Dataset) (evs : List Event)
    (h : datasetEvents1 limit ds = .ok evs) :
    (ds.typeName ≠ "VOLUME" →
      evs.filter (fun ev => ev.key == "volsize_bytes") = [])
  ∧ ((depth ds.name : Int) ≥ limit →
      evs.filter (fun ev => ev.key == "volsize_bytes") = [])
  ∧ (ds.typeName = "VOLUME" → (depth ds.name : Int) < limit →
      (evs.filter (fun ev => ev.key == "volsize_bytes")).length = 1) := by
  rcases lt_trichotomy ((depth ds.name : Int)) limit with hlt | heq | hgt
  · obtain ⟨vev, fev, hv, hf, rfl⟩ := datasetEvents1_lt _ _ _ hlt h
    obtain ⟨u, ub, av, cr, ty, _, _, _, _, _, rfl⟩ := fullEvents_shape _ _ hf
    rcases volEvents_shape _ _ hv with ⟨hnv, rfl⟩ | ⟨hvol, v, _, rfl⟩
    · exact ⟨fun _ => by simp, fun hge => absurd hlt (by omega), fun hveq _ => absurd hveq hnv⟩
    · exact ⟨fun hnv => absurd hvol hnv, fun hge => absurd hlt (by omega), fun _ _ => by simp⟩
  · obtain ⟨u, _, rfl⟩ := datasetEvents1_at_limit _ _ _ heq h
    exact ⟨fun _ => by simp, fun _ => by simp, fun _ hlt => absurd heq (by omega)⟩
  · rw [datasetEvents1_gt _ _ _ hgt h]
    exact ⟨fun _ => rfl, fun _ => rfl, fun _ hlt => absurd hgt (by omega)⟩

/-- Witness for C7 at a concrete volume dataset at full detail. -/
theorem C7_volsize_gating_witness :
    (datasetEvents1 2 dsVol = .ok evsVol) ∧
    ((dsVol.typeName ≠ "VOLUME" →
       evsVol.filter (fun ev => ev.key == "volsize_bytes") = [])
     ∧ ((depth dsVol.name : Int) ≥ 2 →
       evsVol.filter (fun ev => ev.key == "volsize_bytes") = [])
     ∧ (dsVol.typeName = "VOLUME" → (depth dsVol.name : Int) < 2 →
       (evsVol.filter (fun ev => ev.key == "volsize_bytes")).length = 1)) :=
  ⟨by decide, C7_volsize_gating 2 dsVol evsVol (by decide)⟩

/-- C8: every completed pass yields series under the fixed naming
contract — the three pool series zfs_pool_size_bytes,
zfs_pool_allocated_bytes and zfs_pool_freeing_bytes carry the single
label pool, and the seven dataset series carry exactly the labels pool
and dataset under the zfs_dataset prefix with the catalog suffixes. -/
theorem C8_naming_contract (c : ZFSCollector) (st : ZFSState) (tS tE : Int)
    (out : Output) (h : collect c (.ok st) tS tE = .ok out) :
    out.series.map (fun s => (s.name, s.labelNames)) =
      [("zfs_pool_size_bytes", ["pool"]),
       ("zfs_pool_allocated_bytes", ["pool"]),
       ("zfs_pool_freeing_bytes", ["pool"]),
       ("zfs_dataset_used_bytes", ["pool", "dataset"]),
       ("zfs_dataset_usedbydataset_bytes", ["pool", "dataset"]),
       ("zfs_dataset_available_bytes", ["pool", "dataset"]),
       ("zfs_dataset_atime_enabled", ["pool", "dataset"]),
       ("zfs_dataset_creation_date", ["pool", "dataset"]),
       ("zfs_dataset_type", ["pool", "dataset"]),
       ("zfs_dataset_volsize_bytes", ["pool", "dataset"])] := by
  obtain ⟨pev, dev, _, _, rfl⟩ := collect_ok_shape _ _ _ _ _ h
  rfl

/-- Witness for C8 over a concrete empty hierarchy. -/
theorem C8_naming_contract_witness :
    (collect ⟨2, []⟩ (.ok ⟨[], []⟩) 0 5 = .ok outEmpty) ∧
    outEmpty.series.map (fun s => (s.name, s.labelNames)) =
      [("zfs_pool_size_bytes", ["pool"]),
       ("zfs_pool_allocated_bytes", ["pool"]),
       ("zfs_pool_freeing_bytes", ["pool"]),
       ("zfs_dataset_used_bytes", ["pool", "dataset"]),
       ("zfs_dataset_usedbydataset_bytes", ["pool", "dataset"]),
       ("zfs_dataset_available_bytes", ["pool", "dataset"]),
       ("zfs_dataset_atime_enabled", ["pool", "dataset"]),
       ("zfs_dataset_creation_date", ["pool", "dataset"]),
       ("zfs_dataset_type", ["pool", "dataset"]),
       ("zfs_dataset_volsize_bytes", ["pool", "dataset"])] :=
  ⟨by decide, C8_naming_contract ⟨2, []⟩ ⟨[], []⟩ 0 5 outEmpty (by decide)⟩

/-- C9: every completed pass records exactly one duration observation,
the wall-clock span from start to end, which is non-negative whenever
the end timestamp is not before the start timestamp — independent of how
many pools or datasets exist. -/
theorem C9_duration_observation (c : ZFSCollector) (st : ZFSState) (tS tE : Int)
    (out : Output) (h : collect c (.ok st) tS tE = .ok out) (ht : tS ≤ tE) :
    out.observations.length = 1 ∧ out.observations = [tE - tS] ∧
      ∀ v ∈ out.observations, 0 ≤ v := by
  obtain ⟨pev, dev, _, _, rfl⟩ := collect_ok_shape _ _ _ _ _ h
  refine ⟨rfl, rfl, ?_⟩
  intro v hv
  simp only [List.mem_singleton] at hv
  omega

/-- Witness for C9 over a concrete pass. -/
theorem C9_duration_observation_witness :
    (collect ⟨2, []⟩ (.ok ⟨[], []⟩) 0 5 = .ok outEmpty ∧ (0 : Int) ≤ 5) ∧
    (outEmpty.observations.length = 1 ∧ outEmpty.observations = [(5 : Int) - 0] ∧
      ∀ v ∈ outEmpty.observations, 0 ≤ v) :=
  ⟨⟨by decide, by decide⟩,
   C9_duration_observation ⟨2, []⟩ ⟨[], []⟩ 0 5 outEmpty (by decide) (by decide)⟩

/-- C10: every completed pass yields exactly the same ten series — three
pool series and seven dataset series in a fixed order, each exactly once
whatever the hierarchy contains (empty series included) — and the
volumes_metrics dictionary contributes none. -/
theorem C10_fixed_series_set (c : ZFSCollector) (st : ZFSState) (tS tE : Int)
    (out : Output) (h : collect c (.ok st) tS tE = .ok out) :
    out.series.length = 10
  ∧ out.series.map Series.name =
      ["zfs_pool_size_bytes", "zfs_pool_allocated_bytes", "zfs_pool_freeing_bytes",
       "zfs_dataset_used_bytes", "zfs_dataset_usedbydataset_bytes",
       "zfs_dataset_available_bytes", "zfs_dataset_atime_enabled",
       "zfs_dataset_creation_date", "zfs_dataset_type", "zfs_dataset_volsize_bytes"]
  ∧ volumes_metrics = [] := by
  obtain ⟨pev, dev, _, _, rfl⟩ := collect_ok_shape _ _ _ _ _ h
  exact ⟨rfl, rfl, rfl⟩

/-- Witness for C10 over a concrete empty hierarchy: the ten series are
yielded even though every one of them is empty. -/
theorem C10_fixed_series_set_witness :
    (collect ⟨2, []⟩ (.ok ⟨[], []⟩) 0 5 = .ok outEmpty) ∧
    (outEmpty.series.length = 10
     ∧ outEmpty.series.map Series.name =
        ["zfs_pool_size_bytes", "zfs_pool_allocated_bytes", "zfs_pool_freeing_bytes",
         "zfs_dataset_used_bytes", "zfs_dataset_usedbydataset_bytes",
         "zfs_dataset_available_bytes", "zfs_dataset_atime_enabled",
         "zfs_dataset_creation_date", "zfs_dataset_type", "zfs_dataset_volsize_bytes"]
     ∧ volumes_metrics = []) :=
  ⟨by decide, C10_fixed_series_set ⟨2, []⟩ ⟨[], []⟩ 0 5 outEmpty (by decide)⟩
